import Mathlib

/-!
Verification of the station-state reconciliation and notification engine of
the `iobroker.cpt` adapter (`main.js`), as a shallow embedding in Lean 4.

JavaScript values are modelled as follows: possibly-absent strings are
`Option String` (with `none` for `null`/`undefined`), counts are `Nat`,
and numeric quantities are `Int` — timestamps are `Date.now()`
milliseconds, distances are `Math.round`-ed meters, and thresholds are
compared only through `<`/`≤`, so exact integer arithmetic models them
faithfully.  Possibly-non-finite numbers are `Option Int` (`none` for a
`NaN`/`Infinity` that the source rejects through `Number.isFinite`).  Stateful adapter fields (`notifyMetaByStation`,
`lastFreePortsByStation`) become explicit state records threaded through
step functions; external I/O (the station-info API, the object store,
`sendTo`) becomes explicit oracle parameters.
-/

namespace Cpt

/-- JavaScript `String.prototype.toLowerCase`, modelled character-wise so
that it evaluates by kernel reduction. -/
def jsToLower (s : String) : String := String.mk (s.data.map Char.toLower)

/-- JavaScript `String.prototype.trim`, modelled character-wise. -/
def jsTrim (s : String) : String :=
  String.mk (((s.data.dropWhile Char.isWhitespace).reverse.dropWhile Char.isWhitespace).reverse)

/-- JavaScript `String.prototype.startsWith`, modelled character-wise. -/
def jsStartsWith (s pre : String) : Bool := pre.data.isPrefixOf s.data

/-- Dropping a prefix of `n` characters, modelled character-wise
(for `st.replace(/^name:/, '')` after a successful `startsWith`). -/
def jsDrop (s : String) (n : Nat) : String := String.mk (s.data.drop n)

/-- JavaScript truthiness of a possibly-absent string
(`undefined`, `null` and `""` are falsy). -/
def strTruthy : Option String → Bool
  | some s => s ≠ ""
  | none => false

/-- The JavaScript expression `a || b` on possibly-absent strings:
yields `a` when `a` is truthy, otherwise `b`. -/
def jsOrStr (a b : Option String) : Option String :=
  if strTruthy a then a else b

/-- `normalizeStatus` (main.js:491): `(val ?? 'unknown')` lower-cased,
with the empty string replaced by `'unknown'`. -/
def normalizeStatus (val : Option String) : String :=
  let s := jsToLower (val.getD "unknown")
  if s = "" then "unknown" else s

/-- A raw port record of the station-info API; only the fields the
reconciliation logic reads are kept. -/
structure Port where
  status : Option String := none
  statusV2 : Option String := none
  outletNumber : Option Nat := none
deriving Repr, DecidableEq

/-- The normalized status of a port: `normalizeStatus(p?.statusV2 || p?.status)`
as computed in `deriveStationStatusFromPorts` (main.js:497) and the
`freePorts` reduce (main.js:1429). -/
def portNormStatus (p : Port) : String :=
  normalizeStatus (jsOrStr p.statusV2 p.status)

/-- The status bucket mapped to `'in_use'` (main.js:498). -/
def inUseSet : List String := ["in_use", "charging", "occupied"]

/-- The status bucket mapped to `'unavailable'` (main.js:500). -/
def unavailableSet : List String := ["unavailable", "out_of_service", "faulted", "offline"]

/-- `deriveStationStatusFromPorts` (main.js:496-502): station-level status
derived from the port list by fixed precedence, falling back to the first
port's normalized status (`statuses[0] || 'unknown'`). -/
def deriveStationStatusFromPorts (ports : List Port) : String :=
  let statuses := ports.map portNormStatus
  if statuses.any (fun s => inUseSet.contains s) then "in_use"
  else if statuses.any (fun s => s = "available") then "available"
  else if statuses.any (fun s => unavailableSet.contains s) then "unavailable"
  else
    match statuses with
    | [] => "unknown"
    | s :: _ => if s = "" then "unknown" else s






/-- The `portsInfo` wrapper of a station-info response; `ports` is `none`
when the field is absent or not an array. -/
structure PortsInfo where
  ports : Option (List Port) := none
deriving Repr, DecidableEq

/-- A station-info API response; only `portsInfo` is read by the
port-reconciliation logic. -/
structure StationData where
  portsInfo : Option PortsInfo := none
deriving Repr, DecidableEq

/-- `Array.isArray(data1?.portsInfo?.ports) ? data1.portsInfo.ports : []`
(main.js:1384): the response's ports array, or `[]` when any link of the
optional chain is absent. -/
def portsOf (d : Option StationData) : List Port :=
  match d with
  | some sd =>
    match sd.portsInfo with
    | some pi => pi.ports.getD []
    | none => []
  | none => []

/-- `data?.portsInfo?.ports?.[0] || {}` (main.js:1380-1381): the first raw
port of a response, or an empty stub. -/
def firstPortOrStub (d : Option StationData) : Port :=
  (portsOf d).headD {}

/-- `buildLogicalPorts` (main.js:1378-1385). -/
def buildLogicalPorts (data1 data2 : Option StationData) (hasSecondId : Bool) : List Port :=
  if hasSecondId then
    let p1 := firstPortOrStub data1
    let p2 := firstPortOrStub data2
    [{ p1 with outletNumber := some 1 }, { p2 with outletNumber := some 2 }]
  else
    portsOf data1

/-- `st.deviceId2 ? 2 : ports.length` (main.js:1428). -/
def stationPortCount (hasSecondId : Bool) (ports : List Port) : Nat :=
  if hasSecondId then 2 else ports.length

/-- The `freePorts` reduce (main.js:1429): count of ports whose normalized
status is `'available'`. -/
def countFreePorts (ports : List Port) : Nat :=
  ports.foldl (fun acc p => acc + if portNormStatus p = "available" then 1 else 0) 0


/-- The per-station notify memory `notifyMetaByStation[prefix]`
(main.js:472, main.js:1184-1189), default `{ inRange:false, notified:false,
lastSent:0 }`. -/
structure NotifyMeta where
  inRange : Bool := false
  notified : Bool := false
  lastSent : Int := 0
deriving Repr, DecidableEq

/-- A configured subscription row.  `enabled` is the result of `isTrue` on
the raw config value; `station` and `recipient` are the raw strings
(`none` for `null`/`undefined`). -/
structure Subscription where
  enabled : Bool := false
  station : Option String := none
  recipient : Option String := none
deriving Repr, DecidableEq

/-- The per-subscription predicate of `stationHasNotifyTarget`
(main.js:1226-1233): enabled, with a non-empty trimmed station selector
that is the wildcard `__ALL__`, a `name:`-selector matching the station
name case-insensitively, or the exact station key. -/
def subscriptionMatches (stationPrefixRel stationName : String) (s : Subscription) : Bool :=
  if ¬ s.enabled then false
  else
    let stVal := jsTrim (s.station.getD "")
    if stVal = "" then false
    else if stVal = "__ALL__" then true
    else if jsStartsWith stVal "name:" then
      jsToLower stationName = jsToLower (jsTrim (jsDrop stVal 5))
    else stVal = stationPrefixRel

/-- `stationHasNotifyTarget` (main.js:1224-1235). -/
def stationHasNotifyTarget (subs : List Subscription)
    (stationPrefixRel stationName : String) : Bool :=
  subs.any (subscriptionMatches stationPrefixRel stationName)

/-- The result record of `passesNotifyFilters` (main.js:1153). -/
structure FilterResult where
  ok : Bool
  socOk : Bool
  distanceOk : Bool
  soc : Option Int
  distanceM : Option Int
deriving Repr, DecidableEq

/-- `passesNotifyFilters` (main.js:1152-1181).  `socThreshold` stands for
`Number(this.notifySocBelow)` and `distMax` for
`Number(this.notifyMaxDistanceM)` (`none` when not finite); `carSoc` is the
car's state-of-charge field (`none` when not a finite number) and
`stationDistM` the station's `distance.m` state (`none` when the state is
missing or not finite). -/
def passesNotifyFilters (socThreshold carSoc distMax stationDistM : Option Int) :
    FilterResult :=
  let r0 : FilterResult :=
    { ok := true, socOk := true, distanceOk := true, soc := carSoc, distanceM := none }
  let r1 :=
    match socThreshold with
    | none => r0
    | some th =>
      match carSoc with
      | none => { r0 with ok := false, socOk := false }
      | some soc =>
        let sOk := decide (soc < th)
        { r0 with socOk := sOk, ok := r0.ok && sOk }
  match distMax with
  | none => r1
  | some mx =>
    match stationDistM with
    | none => { r1 with ok := false, distanceOk := false, distanceM := none }
    | some d =>
      let dOk := decide (d ≤ mx)
      { r1 with distanceM := some d, distanceOk := dOk, ok := r1.ok && dOk }

/-- The exit point taken by `attemptNotifyForStation` (main.js:1237-1276):
either the notification was sent, or the name of the guard whose early
`return` fired. -/
inductive NotifyOutcome where
  | sent
  | skipNotFree
  | skipNotified
  | skipCooldown
  | skipNotRelevant
  | skipFilters
deriving Repr, DecidableEq

/-- The per-call environment of `attemptNotifyForStation`: the current
time, the adapter configuration and the adapter/state-store values the
function reads.  `cooldownMin` is `Number(this.notifyCooldownMin)` with
`none` for `NaN`; `notifyEnabled` is `notifyState?.val === true` for the
station's `notifyOnAvailable` state. -/
structure NotifyEnv where
  now : Int := 0
  cooldownMin : Option Int := none
  notifyEnabled : Bool := false
  subs : List Subscription := []
  stationPrefixRel : String := ""
  stationName : String := ""
  socThreshold : Option Int := none
  carSoc : Option Int := none
  distMax : Option Int := none
  stationDistM : Option Int := none
deriving Repr

/-- The cooldown guard of `attemptNotifyForStation` (main.js:1250-1253):
`cdMin > 0 && meta.lastSent && Date.now() - meta.lastSent < cdMin * 60 * 1000`
with `cdMin = Number(this.notifyCooldownMin) || 0`. -/
def cooldownHit (env : NotifyEnv) (meta : NotifyMeta) : Prop :=
  0 < env.cooldownMin.getD 0 ∧ meta.lastSent ≠ 0 ∧
    env.now - meta.lastSent < env.cooldownMin.getD 0 * 60 * 1000

instance (env : NotifyEnv) (meta : NotifyMeta) : Decidable (cooldownHit env meta) := by
  unfold cooldownHit
  infer_instance

/-- `attemptNotifyForStation` (main.js:1237-1276), returning the updated
notify meta and the exit point taken. -/
def attemptNotifyForStation (env : NotifyEnv) (meta : NotifyMeta) (freePorts : Nat) :
    NotifyMeta × NotifyOutcome :=
  if ¬ 0 < freePorts then ({ meta with notified := false }, .skipNotFree)
  else if meta.notified then (meta, .skipNotified)
  else if cooldownHit env meta then (meta, .skipCooldown)
  else if ¬ env.notifyEnabled ∧
      ¬ stationHasNotifyTarget env.subs env.stationPrefixRel env.stationName then
    (meta, .skipNotRelevant)
  else if ¬ (passesNotifyFilters env.socThreshold env.carSoc env.distMax env.stationDistM).ok then
    (meta, .skipFilters)
  else ({ meta with notified := true, lastSent := env.now }, .sent)

/-- `prevFree !== undefined && Number(prevFree) === 0 && Number(freePorts) > 0`
(main.js:1471). -/
def becameFree (prev : Option Nat) (newFree : Nat) : Bool :=
  match prev with
  | none => false
  | some p => decide (p = 0 ∧ 0 < newFree)

/-- The observable result of one station's notify phase in a poll cycle:
the updated meta, the new `lastFreePortsByStation` entry, and the outcome
of `attemptNotifyForStation` when it was invoked. -/
structure CycleResult where
  meta : NotifyMeta
  lastFree : Option Nat
  outcome : Option NotifyOutcome
deriving Repr, DecidableEq

/-- The notify phase of `updateAllStations` for one enabled station
(main.js:1464-1482): reset `notified` when the station is not free, invoke
`attemptNotifyForStation` exactly on the `0 → >0` edge, then overwrite the
recorded free-port count. -/
def stationNotifyCycle (env : NotifyEnv) (prevFree : Option Nat) (meta : NotifyMeta)
    (freePorts : Nat) : CycleResult :=
  let meta1 := if ¬ 0 < freePorts then { meta with notified := false } else meta
  if becameFree prevFree freePorts then
    let r := attemptNotifyForStation env meta1 freePorts
    { meta := r.1, lastFree := some freePorts, outcome := some r.2 }
  else
    { meta := meta1, lastFree := some freePorts, outcome := none }

/-- `Math.round(enter * 1.1)` (main.js:1194) in exact arithmetic over
integer meters: `Math.round` rounds half toward positive infinity, so
`round(11 * enter / 10) = ⌊(11 * enter + 5) / 10⌋`. -/
def jsRoundTenth (enterTimes11 : Int) : Int := (enterTimes11 + 5).ediv 10

/-- `getExitDistanceM` (main.js:1191-1195): `null` unless the configured
enter distance is finite and positive, else `Math.round(enter * 1.1)`. -/
def getExitDistanceM (notifyMaxDistanceM : Option Int) : Option Int :=
  match notifyMaxDistanceM with
  | none => none
  | some enter => if enter ≤ 0 then none else some (jsRoundTenth (enter * 11))

/-- The result object of `computeInRange` (main.js:1208,1221). -/
structure InRangeResult where
  prev : Bool
  now : Bool
  entered : Bool
  exited : Bool
  distanceM : Option Int
deriving Repr, DecidableEq

/-- `computeInRange` (main.js:1197-1222).  `dState` is the station's
`distance.m` state (`none` when missing or not a finite number); the
function both returns the transition record and commits `meta.inRange`. -/
def computeInRange (notifyMaxDistanceM : Option Int) (meta : NotifyMeta)
    (dState : Option Int) : NotifyMeta × InRangeResult :=
  let enter := notifyMaxDistanceM
  let exit := getExitDistanceM notifyMaxDistanceM
  match dState with
  | none =>
    let prev := meta.inRange
    ({ meta with inRange := false },
     { prev := prev, now := false, entered := false, exited := prev, distanceM := none })
  | some d =>
    let prev := meta.inRange
    let now :=
      if prev then
        match exit with
        | some ex => if ex ≤ d then false else prev
        | none => prev
      else
        match enter with
        | some en => if d ≤ en then true else prev
        | none => prev
    ({ meta with inRange := now },
     { prev := prev, now := now, entered := !prev && now, exited := prev && !now,
       distanceM := some d })

/-- A configured messaging channel after `getActiveChannels` mapping
(main.js:590-595). -/
structure Channel where
  inst : String := ""
  user : String := ""
  label : String := ""
deriving Repr, DecidableEq

/-- The result object of `sendMessageToChannels` (main.js:627,684),
extended with the list of (zero-based) channel indices whose `sendTo`
call succeeded, so that delivery to individual channels is observable. -/
structure SendResult where
  ok : Nat := 0
  failed : Nat := 0
  delivered : List Nat := []
  note : String := ""
deriving Repr, DecidableEq

/-- One iteration of the delivery loop of `sendMessageToChannels`
(main.js:633-682): attempt `sendTo` for the channel at index `i`; a throw
increments `failed`, success increments `ok` and delivers. -/
def sendStep (throws : Nat → Bool) (acc : SendResult) (ic : Nat × Channel) : SendResult :=
  if throws ic.1 then { acc with failed := acc.failed + 1 }
  else { acc with ok := acc.ok + 1, delivered := acc.delivered ++ [ic.1] }

/-- `sendMessageToChannels` (main.js:623-685) over an already-resolved
active channel list.  The external `sendTo` call is modelled by the oracle
`throws`, telling which channel indices throw synchronously. -/
def sendMessageToChannels (channels : List Channel) (throws : Nat → Bool) : SendResult :=
  if channels.length = 0 then { ok := 0, failed := 0, delivered := [], note := "no_channels" }
  else
    channels.enum.foldl (sendStep throws)
      { ok := 0, failed := 0, delivered := [], note := "sent" }

/-- A configured station row (`stations` config): `deviceId2` is `none`
for `null`/`undefined`, and `enabled` keeps the raw tri-state so that the
strict `st.enabled === false` test (main.js:1418) is expressible. -/
structure StationCfg where
  name : String := ""
  deviceId1 : String := ""
  deviceId2 : Option String := none
  enabled : Option Bool := none
deriving Repr, DecidableEq

/-- Truthiness of `st.deviceId2`, as used at main.js:1391, 1427 and 1428. -/
def hasSecondDevice (st : StationCfg) : Bool := strTruthy st.deviceId2

/-- The observable effects of processing one station inside the
`updateAllStations` loop (main.js:1389-1487): device ids fetched, values
written to the station's status states, number of port channels written,
and the notify-phase results. -/
structure ProcessResult where
  fetched : List String
  statusDerivedW : Option String
  portCountW : Option Nat
  freePortsW : Option Nat
  lastUpdateW : Bool
  portWriteCount : Nat
  meta : NotifyMeta
  lastFree : Option Nat
  outcome : Option NotifyOutcome
deriving Repr, DecidableEq

/-- One station's pass of the `updateAllStations` loop (main.js:1389-1487).
`api` is the station-info API oracle (`safeFetch` returns `none` on fetch
failure).  A disabled station (`enabled === false`) is short-circuited
after the fetch and GPS/distance updates: sentinel status `'deaktiviert'`,
zeroed counts, a `lastUpdate` write, and `continue` — so no port writes,
no transition detection and no notify logic. -/
def processStation (api : String → Option StationData) (env : NotifyEnv)
    (st : StationCfg) (prevFree : Option Nat) (meta : NotifyMeta) : ProcessResult :=
  let data1 := api st.deviceId1
  let data2 := if hasSecondDevice st then api (st.deviceId2.getD "") else none
  let fetched := st.deviceId1 :: (if hasSecondDevice st then [st.deviceId2.getD ""] else [])
  if st.enabled = some false then
    { fetched := fetched, statusDerivedW := some "deaktiviert", portCountW := some 0,
      freePortsW := some 0, lastUpdateW := true, portWriteCount := 0,
      meta := meta, lastFree := prevFree, outcome := none }
  else
    let ports := buildLogicalPorts data1 data2 (hasSecondDevice st)
    let portCount := stationPortCount (hasSecondDevice st) ports
    let freePorts := countFreePorts ports
    let derived := deriveStationStatusFromPorts ports
    let c := stationNotifyCycle env prevFree meta freePorts
    { fetched := fetched, statusDerivedW := some derived, portCountW := some portCount,
      freePortsW := some freePorts, lastUpdateW := true, portWriteCount := ports.length,
      meta := c.meta, lastFree := c.lastFree, outcome := c.outcome }

/-- Declarative restatement of the subscription-targeting rule, used to
compare `stationHasNotifyTarget` against the specification's wording: an
enabled subscription with a non-empty selector that is the wildcard, a
name-based selector matching the station name, or the exact station key. -/
def targetsStation (stationPrefixRel stationName : String) (s : Subscription) : Prop :=
  s.enabled = true ∧
  jsTrim (s.station.getD "") ≠ "" ∧
  (jsTrim (s.station.getD "") = "__ALL__" ∨
   (jsTrim (s.station.getD "") ≠ "__ALL__" ∧
    jsStartsWith (jsTrim (s.station.getD "")) "name:" = true ∧
    jsToLower stationName = jsToLower (jsTrim (jsDrop (jsTrim (s.station.getD "")) 5))) ∨
   (jsTrim (s.station.getD "") ≠ "__ALL__" ∧
    jsStartsWith (jsTrim (s.station.getD "")) "name:" = false ∧
    jsTrim (s.station.getD "") = stationPrefixRel))

-- ===== Theorems =====

theorem normalizeStatus_ne_empty (v : Option String) : normalizeStatus v ≠ "" := by
  unfold normalizeStatus
  by_cases h : jsToLower (v.getD "unknown") = "" <;> simp [h]

theorem portNormStatus_ne_empty (p : Port) : portNormStatus p ≠ "" :=
  normalizeStatus_ne_empty _

theorem any_inUse_iff (l : List String) :
    (l.any (fun s => inUseSet.contains s) = true) ↔ ∃ s ∈ l, s ∈ inUseSet := by
  simp [List.any_eq_true]

theorem any_avail_iff (l : List String) :
    (l.any (fun s => s = "available") = true) ↔ ∃ s ∈ l, s = "available" := by
  simp [List.any_eq_true]

theorem any_unavail_iff (l : List String) :
    (l.any (fun s => unavailableSet.contains s) = true) ↔ ∃ s ∈ l, s ∈ unavailableSet := by
  simp [List.any_eq_true]

theorem countFreePorts_foldl (l : List Port) :
    ∀ n : Nat,
      l.foldl (fun acc p => acc + if portNormStatus p = "available" then 1 else 0) n =
        n + (l.map portNormStatus).count "available" := by
  induction l with
  | nil => simp
  | cons p l ih =>
    intro n
    simp only [List.foldl_cons, ih, List.map_cons, List.count_cons]
    by_cases h : portNormStatus p = "available"
    all_goals simp [h]
    all_goals omega

/-- C1: for every port list, `deriveStationStatusFromPorts` follows the
fixed precedence on normalized port statuses: any `in_use`/`charging`/
`occupied` yields `'in_use'`; else any `'available'` yields `'available'`;
else any `unavailable`/`out_of_service`/`faulted`/`offline` yields
`'unavailable'`; else the first port's normalized status, with `'unknown'`
for the empty list.  In particular a two-port list with one `charging` and
one `available` port yields `'in_use'` in either order. -/
theorem C1_station_status_precedence (ports : List Port) :
    ((∃ s ∈ ports.map portNormStatus, s ∈ inUseSet) →
      deriveStationStatusFromPorts ports = "in_use") ∧
    ((¬ ∃ s ∈ ports.map portNormStatus, s ∈ inUseSet) →
      (∃ s ∈ ports.map portNormStatus, s = "available") →
      deriveStationStatusFromPorts ports = "available") ∧
    ((¬ ∃ s ∈ ports.map portNormStatus, s ∈ inUseSet) →
      (¬ ∃ s ∈ ports.map portNormStatus, s = "available") →
      (∃ s ∈ ports.map portNormStatus, s ∈ unavailableSet) →
      deriveStationStatusFromPorts ports = "unavailable") ∧
    (deriveStationStatusFromPorts [] = "unknown") ∧
    (∀ p rest, ports = p :: rest →
      (¬ ∃ s ∈ ports.map portNormStatus, s ∈ inUseSet) →
      (¬ ∃ s ∈ ports.map portNormStatus, s = "available") →
      (¬ ∃ s ∈ ports.map portNormStatus, s ∈ unavailableSet) →
      deriveStationStatusFromPorts ports = portNormStatus p) ∧
    (∀ p q : Port, portNormStatus p = "charging" → portNormStatus q = "available" →
      deriveStationStatusFromPorts [p, q] = "in_use" ∧
      deriveStationStatusFromPorts [q, p] = "in_use") := by
  refine ⟨?_, ?_, ?_, rfl, ?_, ?_⟩
  · intro h
    unfold deriveStationStatusFromPorts
    rw [if_pos ((any_inUse_iff _).mpr h)]
  · intro h1 h2
    unfold deriveStationStatusFromPorts
    rw [if_neg, if_pos ((any_avail_iff _).mpr h2)]
    simp only [any_inUse_iff]
    exact h1
  · intro h1 h2 h3
    unfold deriveStationStatusFromPorts
    rw [if_neg, if_neg, if_pos ((any_unavail_iff _).mpr h3)]
    · simp only [any_avail_iff]
      exact h2
    · simp only [any_inUse_iff]
      exact h1
  · intro p rest hps h1 h2 h3
    unfold deriveStationStatusFromPorts
    rw [if_neg, if_neg, if_neg]
    · subst hps
      simp [portNormStatus_ne_empty p]
    · simp only [any_unavail_iff]
      exact h3
    · simp only [any_avail_iff]
      exact h2
    · simp only [any_inUse_iff]
      exact h1
  · intro p q hp hq
    constructor <;>
    · unfold deriveStationStatusFromPorts
      rw [if_pos]
      simp [any_inUse_iff, hp, hq, inUseSet]

/-- Witness for C1: a `charging` port and an `Available` port (upper case
in the raw payload) derive to `'in_use'`. -/
theorem C1_station_status_precedence_witness :
    deriveStationStatusFromPorts
      [{ status := some "charging" }, { status := some "Available" }] = "in_use" :=
  ((C1_station_status_precedence []).2.2.2.2.2
    { status := some "charging" } { status := some "Available" } (by decide) (by decide)).1

/-- C2: dual-device normalization always yields exactly two ports, outlet 1
from response 1's first port (stub if absent) and outlet 2 from response
2's first port, with `portCount` fixed at 2; single-device stations use
response 1's ports array verbatim with `portCount` its length; and
`freePorts` counts the ports whose normalized status is `'available'`. -/
theorem C2_build_logical_ports (d1 d2 : Option StationData) :
    buildLogicalPorts d1 d2 true =
      [{ firstPortOrStub d1 with outletNumber := some 1 },
       { firstPortOrStub d2 with outletNumber := some 2 }] ∧
    (buildLogicalPorts d1 d2 true).length = 2 ∧
    stationPortCount true (buildLogicalPorts d1 d2 true) = 2 ∧
    buildLogicalPorts d1 d2 false = portsOf d1 ∧
    stationPortCount false (buildLogicalPorts d1 d2 false) = (portsOf d1).length ∧
    (∀ ports : List Port,
      countFreePorts ports = (ports.map portNormStatus).count "available") := by
  refine ⟨rfl, rfl, rfl, rfl, rfl, ?_⟩
  intro ports
  unfold countFreePorts
  rw [countFreePorts_foldl]
  simp

theorem attempt_sent_notified (env : NotifyEnv) (meta : NotifyMeta) (fp : Nat) :
    (attemptNotifyForStation env meta fp).2 = .sent →
      (attemptNotifyForStation env meta fp).1.notified = true := by
  unfold attemptNotifyForStation
  split_ifs <;> simp

theorem attempt_skip_of_notified (env : NotifyEnv) (meta : NotifyMeta) (fp : Nat)
    (hn : meta.notified = true) (hf : 0 < fp) :
    attemptNotifyForStation env meta fp = (meta, .skipNotified) := by
  unfold attemptNotifyForStation
  split_ifs
  all_goals simp_all

theorem attempt_notified_eq (env : NotifyEnv) (meta : NotifyMeta) (fp : Nat) (hf : 0 < fp) :
    (attemptNotifyForStation env meta fp).1.notified =
      (meta.notified || decide ((attemptNotifyForStation env meta fp).2 = .sent)) := by
  unfold attemptNotifyForStation
  split_ifs <;> simp_all

theorem attempt_cooldown_blocks (env : NotifyEnv) (meta : NotifyMeta) (fp : Nat)
    (h1 : 0 < env.cooldownMin.getD 0) (h2 : meta.lastSent ≠ 0)
    (h3 : env.now - meta.lastSent < env.cooldownMin.getD 0 * 60 * 1000) :
    (attemptNotifyForStation env meta fp).2 ≠ .sent ∧
    (0 < fp → meta.notified = false →
      attemptNotifyForStation env meta fp = (meta, .skipCooldown)) := by
  unfold attemptNotifyForStation
  split_ifs <;> simp_all [cooldownHit]

theorem attempt_sent_implies_relevant (env : NotifyEnv) (meta : NotifyMeta) (fp : Nat) :
    (attemptNotifyForStation env meta fp).2 = .sent →
      (env.notifyEnabled = true ∨
       stationHasNotifyTarget env.subs env.stationPrefixRel env.stationName = true) := by
  unfold attemptNotifyForStation
  split_ifs <;> simp_all
  by_cases he : env.notifyEnabled <;> simp_all

theorem attempt_irrelevant_blocks (env : NotifyEnv) (meta : NotifyMeta) (fp : Nat)
    (h1 : env.notifyEnabled = false)
    (h2 : stationHasNotifyTarget env.subs env.stationPrefixRel env.stationName = false) :
    (attemptNotifyForStation env meta fp).2 ≠ .sent := by
  unfold attemptNotifyForStation
  split_ifs <;> simp_all

theorem attempt_sent_implies_filters_ok (env : NotifyEnv) (meta : NotifyMeta) (fp : Nat) :
    (attemptNotifyForStation env meta fp).2 = .sent →
      (passesNotifyFilters env.socThreshold env.carSoc env.distMax env.stationDistM).ok
        = true := by
  unfold attemptNotifyForStation
  split_ifs <;> simp_all

theorem cycle_lastFree (env : NotifyEnv) (prev : Option Nat) (meta : NotifyMeta) (fp : Nat) :
    (stationNotifyCycle env prev meta fp).lastFree = some fp := by
  cases h : becameFree prev fp <;> simp [stationNotifyCycle, h]

theorem cycle_fire_iff (env : NotifyEnv) (prev : Option Nat) (meta : NotifyMeta) (fp : Nat) :
    (stationNotifyCycle env prev meta fp).outcome.isSome = becameFree prev fp := by
  unfold stationNotifyCycle
  split_ifs with h <;> simp_all

theorem became_free_iff (prev : Option Nat) (fp : Nat) :
    becameFree prev fp = true ↔ (prev = some 0 ∧ 0 < fp) := by
  cases prev <;> simp [becameFree]

/-- C3: the `0 → >0` edge.  `attemptNotifyForStation` is invoked in a
cycle iff the previously recorded free-port count is `some 0` and the new
count is positive; a first observation (`none`) or a positive previous
count never fires; and the recorded count is overwritten with the new
value after every cycle. -/
theorem C3_transition_edge (env : NotifyEnv) (prevFree : Option Nat) (meta : NotifyMeta)
    (freePorts : Nat) :
    ((stationNotifyCycle env prevFree meta freePorts).outcome.isSome = true ↔
      (prevFree = some 0 ∧ 0 < freePorts)) ∧
    (stationNotifyCycle env prevFree meta freePorts).lastFree = some freePorts ∧
    (prevFree = none → (stationNotifyCycle env prevFree meta freePorts).outcome = none) ∧
    (∀ p, prevFree = some p → 0 < p →
      (stationNotifyCycle env prevFree meta freePorts).outcome = none) := by
  refine ⟨?_, cycle_lastFree env prevFree meta freePorts, ?_, ?_⟩
  · rw [cycle_fire_iff]
    exact became_free_iff prevFree freePorts
  · intro h
    subst h
    have h2 := cycle_fire_iff env none meta freePorts
    cases o : (stationNotifyCycle env none meta freePorts).outcome with
    | none => exact o
    | some x =>
      rw [o] at h2
      simp [becameFree] at h2
  · intro p hp hpos
    subst hp
    have h2 := cycle_fire_iff env (some p) meta freePorts
    cases o : (stationNotifyCycle env (some p) meta freePorts).outcome with
    | none => rfl
    | some x =>
      rw [o] at h2
      simp [becameFree, Nat.pos_iff_ne_zero.mp hpos] at h2

/-- Witness for C3: the first observation (no prior record) does not fire,
and a positive previous count does not fire. -/
theorem C3_transition_edge_witness :
    (stationNotifyCycle {} none {} 5).outcome = none ∧
    (stationNotifyCycle {} (some 2) {} 5).outcome = none :=
  ⟨(C3_transition_edge {} none {} 5).2.2.1 rfl,
   (C3_transition_edge {} (some 2) {} 5).2.2.2 2 rfl (by decide)⟩

theorem subscriptionMatches_iff (p n : String) (s : Subscription) :
    subscriptionMatches p n s = true ↔ targetsStation p n s := by
  unfold subscriptionMatches targetsStation
  by_cases he : s.enabled
  · by_cases h0 : jsTrim (s.station.getD "") = ""
    · simp [he, h0]
    · by_cases hA : jsTrim (s.station.getD "") = "__ALL__"
      · simp [he, h0, hA]
      · by_cases hN : jsStartsWith (jsTrim (s.station.getD "")) "name:"
        · simp [he, h0, hA, hN]
        · simp [he, h0, hA, hN]
  · simp [he]

theorem cycle_eq_of_fire (env : NotifyEnv) (prev : Option Nat) (meta : NotifyMeta) (fp : Nat)
    (h : becameFree prev fp = true) :
    stationNotifyCycle env prev meta fp =
      { meta := (attemptNotifyForStation env meta fp).1,
        lastFree := some fp,
        outcome := some (attemptNotifyForStation env meta fp).2 } := by
  have hfp : 0 < fp := ((became_free_iff prev fp).mp h).2
  simp [stationNotifyCycle, h, hfp]

theorem cycle_eq_of_nofire (env : NotifyEnv) (prev : Option Nat) (meta : NotifyMeta) (fp : Nat)
    (h : becameFree prev fp = false) :
    stationNotifyCycle env prev meta fp =
      { meta := if ¬ 0 < fp then { meta with notified := false } else meta,
        lastFree := some fp, outcome := none } := by
  simp [stationNotifyCycle, h]

theorem cycle_no_outcome_of_prev_pos (env : NotifyEnv) (p : Nat) (hp : 0 < p)
    (meta : NotifyMeta) (fp : Nat) :
    (stationNotifyCycle env (some p) meta fp).outcome = none := by
  rw [cycle_eq_of_nofire]
  simp [becameFree, Nat.pos_iff_ne_zero.mp hp]

/-- C4: at most one notification per free phase.  A sent notification sets
the `notified` flag; while the flag holds and the station stays free every
further attempt is suppressed and the flag persists; the flag is reset
exactly when the free-port count returns to zero (for a free station it
becomes true only through a send); and a second consecutive cycle with a
positive count never produces a second notification. -/
theorem C4_one_notification_per_free_phase (env : NotifyEnv) (prevFree : Option Nat)
    (meta : NotifyMeta) (freePorts : Nat) :
    ((stationNotifyCycle env prevFree meta freePorts).outcome = some .sent →
      (stationNotifyCycle env prevFree meta freePorts).meta.notified = true) ∧
    (meta.notified = true → 0 < freePorts →
      (stationNotifyCycle env prevFree meta freePorts).outcome ≠ some .sent ∧
      (stationNotifyCycle env prevFree meta freePorts).meta.notified = true) ∧
    (freePorts = 0 →
      (stationNotifyCycle env prevFree meta freePorts).meta.notified = false) ∧
    (0 < freePorts →
      ((stationNotifyCycle env prevFree meta freePorts).meta.notified = true ↔
        (meta.notified = true ∨
         (stationNotifyCycle env prevFree meta freePorts).outcome = some .sent))) ∧
    (∀ (env2 : NotifyEnv) (freePorts2 : Nat), 0 < freePorts → 0 < freePorts2 →
      (stationNotifyCycle env2 (stationNotifyCycle env prevFree meta freePorts).lastFree
        (stationNotifyCycle env prevFree meta freePorts).meta freePorts2).outcome = none) := by
  by_cases hb : becameFree prevFree freePorts = true
  · have hfp : 0 < freePorts := ((became_free_iff prevFree freePorts).mp hb).2
    rw [cycle_eq_of_fire env prevFree meta freePorts hb]
    refine ⟨?_, ?_, ?_, ?_, ?_⟩
    · intro h
      exact attempt_sent_notified env meta freePorts (by simpa using h)
    · intro hn _
      rw [attempt_skip_of_notified env meta freePorts hn hfp]
      simp [hn]
    · intro h0
      exact absurd (h0 ▸ hfp) (lt_irrefl 0)
    · intro _
      rw [attempt_notified_eq env meta freePorts hfp]
      simp
    · intro env2 fp2 _ _
      exact cycle_no_outcome_of_prev_pos env2 freePorts hfp _ fp2
  · rw [cycle_eq_of_nofire env prevFree meta freePorts (by simpa using hb)]
    refine ⟨by simp, ?_, ?_, ?_, ?_⟩
    · intro hn hfp
      refine ⟨by simp, ?_⟩
      simp [hfp, hn]
    · intro h0
      simp [h0]
    · intro hfp
      simp [hfp]
    · intro env2 fp2 hfp _
      exact cycle_no_outcome_of_prev_pos env2 freePorts hfp _ fp2

/-- Witness for C4: with the flag already set and the station free, the
cycle sends nothing and keeps the flag. -/
theorem C4_one_notification_per_free_phase_witness :
    (stationNotifyCycle {} (some 0) { notified := true } 3).outcome ≠ some .sent ∧
    (stationNotifyCycle {} (some 0) { notified := true } 3).meta.notified = true :=
  (C4_one_notification_per_free_phase {} (some 0) { notified := true } 3).2.1 rfl
    (by decide)

/-- C5: a configured positive cooldown that has not yet elapsed since the
station's recorded `lastSent` timestamp blocks the notification: nothing
is sent, and when the guards before it pass (station free, `notified`
false) the exit point is exactly the cooldown guard, regardless of
relevance or filters. -/
theorem C5_cooldown_blocks (env : NotifyEnv) (meta : NotifyMeta) (freePorts : Nat)
    (h1 : 0 < env.cooldownMin.getD 0) (h2 : meta.lastSent ≠ 0)
    (h3 : env.now - meta.lastSent < env.cooldownMin.getD 0 * 60 * 1000) :
    (attemptNotifyForStation env meta freePorts).2 ≠ .sent ∧
    (0 < freePorts → meta.notified = false →
      attemptNotifyForStation env meta freePorts = (meta, .skipCooldown)) :=
  attempt_cooldown_blocks env meta freePorts h1 h2 h3

/-- Witness for C5: `lastSentAt` 5 minutes ago with a 15-minute cooldown
blocks with exit point `skipCooldown`. -/
theorem C5_cooldown_blocks_witness :
    attemptNotifyForStation
      { now := 9000000, cooldownMin := some 15, notifyEnabled := true }
      { lastSent := 8700000 } 2 =
      ({ lastSent := 8700000 }, .skipCooldown) :=
  (C5_cooldown_blocks { now := 9000000, cooldownMin := some 15, notifyEnabled := true }
    { lastSent := 8700000 } 2 (by decide) (by decide) (by decide)).2 (by decide) rfl

/-- C6: a station is notification-relevant iff its `notifyOnAvailable`
toggle is on or some enabled subscription targets it (wildcard, name
selector, or exact key); when neither holds nothing is sent, and a sent
notification implies one of the two held. -/
theorem C6_relevance (env : NotifyEnv) (meta : NotifyMeta) (freePorts : Nat) :
    (stationHasNotifyTarget env.subs env.stationPrefixRel env.stationName = true ↔
      ∃ s ∈ env.subs, targetsStation env.stationPrefixRel env.stationName s) ∧
    (env.notifyEnabled = false →
      stationHasNotifyTarget env.subs env.stationPrefixRel env.stationName = false →
      (attemptNotifyForStation env meta freePorts).2 ≠ .sent) ∧
    ((attemptNotifyForStation env meta freePorts).2 = .sent →
      env.notifyEnabled = true ∨
      stationHasNotifyTarget env.subs env.stationPrefixRel env.stationName = true) := by
  refine ⟨?_, ?_, attempt_sent_implies_relevant env meta freePorts⟩
  · unfold stationHasNotifyTarget
    rw [List.any_eq_true]
    constructor
    · rintro ⟨s, hs, hm⟩
      exact ⟨s, hs, (subscriptionMatches_iff _ _ s).mp hm⟩
    · rintro ⟨s, hs, ht⟩
      exact ⟨s, hs, (subscriptionMatches_iff _ _ s).mpr ht⟩
  · exact attempt_irrelevant_blocks env meta freePorts

/-- Witness for C6: with the toggle off and no subscriptions nothing is
sent. -/
theorem C6_relevance_witness :
    (attemptNotifyForStation { notifyEnabled := false, subs := [] } {} 2).2 ≠ .sent :=
  (C6_relevance { notifyEnabled := false, subs := [] } {} 2).2.1 rfl rfl

theorem filters_fail_soc (socTh distMax dst : Option Int) (h : socTh.isSome = true) :
    (passesNotifyFilters socTh none distMax dst).ok = false := by
  rcases socTh with _ | th
  · simp at h
  · rcases distMax with _ | mx
    · simp [passesNotifyFilters]
    · rcases dst with _ | d <;> simp [passesNotifyFilters]

theorem filters_fail_dist (socTh soc distMax : Option Int) (h : distMax.isSome = true) :
    (passesNotifyFilters socTh soc distMax none).ok = false := by
  rcases distMax with _ | mx
  · simp at h
  · rcases socTh with _ | th
    · simp [passesNotifyFilters]
    · rcases soc with _ | s <;> simp [passesNotifyFilters]

/-- C7: an enabled SoC or distance filter whose required input is missing
fails closed: the filter result is not ok and no notification is ever
sent, regardless of any free-port transition. -/
theorem C7_filters_fail_closed (env : NotifyEnv) (meta : NotifyMeta) (freePorts : Nat) :
    (env.socThreshold.isSome = true → env.carSoc = none →
      (passesNotifyFilters env.socThreshold env.carSoc env.distMax env.stationDistM).ok
        = false ∧
      (attemptNotifyForStation env meta freePorts).2 ≠ .sent) ∧
    (env.distMax.isSome = true → env.stationDistM = none →
      (passesNotifyFilters env.socThreshold env.carSoc env.distMax env.stationDistM).ok
        = false ∧
      (attemptNotifyForStation env meta freePorts).2 ≠ .sent) := by
  constructor
  · intro h1 h2
    have hok : (passesNotifyFilters env.socThreshold env.carSoc env.distMax
        env.stationDistM).ok = false := by
      rw [h2]
      exact filters_fail_soc env.socThreshold env.distMax env.stationDistM h1
    refine ⟨hok, fun hs => ?_⟩
    have h3 := attempt_sent_implies_filters_ok env meta freePorts hs
    simp [h3] at hok
  · intro h1 h2
    have hok : (passesNotifyFilters env.socThreshold env.carSoc env.distMax
        env.stationDistM).ok = false := by
      rw [h2]
      exact filters_fail_dist env.socThreshold env.carSoc env.distMax h1
    refine ⟨hok, fun hs => ?_⟩
    have h3 := attempt_sent_implies_filters_ok env meta freePorts hs
    simp [h3] at hok

/-- Witness for C7: an SoC threshold of 30% with no SoC reading blocks
every notification. -/
theorem C7_filters_fail_closed_witness :
    (passesNotifyFilters (some 30) none none none).ok = false ∧
    (attemptNotifyForStation { socThreshold := some 30 } {} 2).2 ≠ .sent :=
  (C7_filters_fail_closed { socThreshold := some 30 } {} 2).1 rfl rfl

theorem filter_length_split (p : Nat → Bool) (l : List Nat) :
    (l.filter (fun i => !(p i))).length + (l.filter p).length = l.length := by
  induction l with
  | nil => rfl
  | cons a l ih =>
    by_cases h : p a
    all_goals simp [List.filter_cons, h]
    all_goals omega

theorem sendStep_foldl (throws : Nat → Bool) (l : List Channel) :
    ∀ (n : Nat) (acc : SendResult),
      (l.enumFrom n).foldl (sendStep throws) acc =
        { ok := acc.ok + ((List.range' n l.length).filter (fun i => !(throws i))).length,
          failed := acc.failed + ((List.range' n l.length).filter throws).length,
          delivered := acc.delivered ++ (List.range' n l.length).filter (fun i => !(throws i)),
          note := acc.note } := by
  induction l with
  | nil => intro n acc; simp
  | cons c l ih =>
    intro n acc
    rw [show (c :: l).length = l.length + 1 from rfl, List.range'_succ]
    simp only [List.enumFrom, List.foldl_cons, ih]
    by_cases h : throws n
    all_goals simp [sendStep, h, List.filter_cons]
    all_goals omega

/-- C9: delivery fan-out is failure-isolated.  For every channel list and
every behaviour of the external `sendTo` (modelled by the indices that
throw), every channel is attempted: the successes are exactly the
non-throwing indices, the counts aggregate to the list length, and with 3
channels of which the second throws the result is `{ok := 2, failed := 1}`
with channels 1 and 3 (indices 0 and 2) still delivered. -/
theorem C9_fanout_failure_isolation (channels : List Channel) (throws : Nat → Bool) :
    ((sendMessageToChannels channels throws).ok =
      ((List.range channels.length).filter (fun i => !(throws i))).length) ∧
    ((sendMessageToChannels channels throws).failed =
      ((List.range channels.length).filter throws).length) ∧
    ((sendMessageToChannels channels throws).ok +
      (sendMessageToChannels channels throws).failed = channels.length) ∧
    ((sendMessageToChannels channels throws).delivered =
      (List.range channels.length).filter (fun i => !(throws i))) ∧
    (∀ c1 c2 c3 : Channel,
      sendMessageToChannels [c1, c2, c3] (fun i => i == 1) =
        { ok := 2, failed := 1, delivered := [0, 2], note := "sent" }) := by
  have key : ∀ ch : List Channel,
      sendMessageToChannels ch throws =
        if ch.length = 0 then { ok := 0, failed := 0, delivered := [], note := "no_channels" }
        else
          { ok := ((List.range ch.length).filter (fun i => !(throws i))).length,
            failed := ((List.range ch.length).filter throws).length,
            delivered := (List.range ch.length).filter (fun i => !(throws i)),
            note := "sent" } := by
    intro ch
    by_cases hc : ch.length = 0
    · simp [sendMessageToChannels, hc]
    · rw [sendMessageToChannels, if_neg hc, if_neg hc]
      rw [show ch.enum = ch.enumFrom 0 from rfl, sendStep_foldl throws ch 0, List.range_eq_range']
      simp
  rw [key channels]
  by_cases hc : channels.length = 0
  · rw [if_pos hc, hc]
    exact ⟨rfl, rfl, rfl, rfl, fun c1 c2 c3 => rfl⟩
  · rw [if_neg hc]
    exact ⟨rfl, rfl, by simpa using filter_length_split throws (List.range channels.length),
      rfl, fun c1 c2 c3 => rfl⟩

/-- C8 counterexample: the claim asserts that no API fetch is performed for
a disabled station, but the loop fetches `deviceId1` (main.js:1390) before
the `enabled === false` short-circuit (main.js:1418): a disabled station
with device id `"42"` records the fetch `["42"]`. -/
theorem C8_disabled_station_counterexample :
    (processStation (fun _ => none) {} { deviceId1 := "42", enabled := some false }
        none {}).fetched = ["42"] ∧
    ¬ (processStation (fun _ => none) {} { deviceId1 := "42", enabled := some false }
        none {}).fetched = [] := by
  constructor
  · rfl
  · intro h
    rw [show (processStation (fun _ => none) {}
        { deviceId1 := "42", enabled := some false } none {}).fetched = ["42"] from rfl] at h
    cases h

/-- C8 (amended): for every disabled station the loop still performs the
device fetches, then short-circuits: status forced to the sentinel
`'deaktiviert'`, port and free-port counts zeroed, `lastUpdate` written,
and no port writes, no transition commit and no notification logic. -/
theorem C8_disabled_station_short_circuit (api : String → Option StationData)
    (env : NotifyEnv) (st : StationCfg) (prevFree : Option Nat) (meta : NotifyMeta)
    (h : st.enabled = some false) :
    (processStation api env st prevFree meta).fetched =
      st.deviceId1 :: (if hasSecondDevice st then [st.deviceId2.getD ""] else []) ∧
    (processStation api env st prevFree meta).statusDerivedW = some "deaktiviert" ∧
    (processStation api env st prevFree meta).portCountW = some 0 ∧
    (processStation api env st prevFree meta).freePortsW = some 0 ∧
    (processStation api env st prevFree meta).lastUpdateW = true ∧
    (processStation api env st prevFree meta).portWriteCount = 0 ∧
    (processStation api env st prevFree meta).outcome = none ∧
    (processStation api env st prevFree meta).meta = meta ∧
    (processStation api env st prevFree meta).lastFree = prevFree := by
  unfold processStation
  rw [if_pos h]
  exact ⟨rfl, rfl, rfl, rfl, rfl, rfl, rfl, rfl, rfl⟩

/-- Witness for the amended C8: a concrete disabled dual-device station. -/
theorem C8_disabled_station_short_circuit_witness :
    (processStation (fun _ => none) {}
        { deviceId1 := "42", deviceId2 := some "43", enabled := some false }
        (some 1) {}).statusDerivedW = some "deaktiviert" ∧
    (processStation (fun _ => none) {}
        { deviceId1 := "42", deviceId2 := some "43", enabled := some false }
        (some 1) {}).fetched = ["42", "43"] := by
  have h := C8_disabled_station_short_circuit (fun _ => none) {}
    { deviceId1 := "42", deviceId2 := some "43", enabled := some false } (some 1) {} rfl
  exact ⟨h.2.1, by rw [h.1]; rfl⟩

/-- C10: per-station geo-fence hysteresis with a positive configured
maximum `en`: `inRange` becomes true only when the measured distance is at
or under `en`; once true it becomes false only when the distance reaches
`Math.round(en * 1.1)` or the distance is undeterminable (which always
forces out of range); strictly between the two thresholds the state keeps
its previous value; and the returned `now` is committed to the meta. -/
theorem C10_inrange_hysteresis (en : Int) (meta : NotifyMeta) (d : Option Int)
    (hen : 0 < en) :
    (meta.inRange = false → (computeInRange (some en) meta d).2.now = true →
      ∃ dv, d = some dv ∧ dv ≤ en) ∧
    (meta.inRange = true → (computeInRange (some en) meta d).2.now = false →
      d = none ∨ ∃ dv, d = some dv ∧ jsRoundTenth (en * 11) ≤ dv) ∧
    (∀ dv, d = some dv → en < dv → dv < jsRoundTenth (en * 11) →
      (computeInRange (some en) meta d).2.now = meta.inRange) ∧
    (d = none → (computeInRange (some en) meta d).2.now = false) ∧
    ((computeInRange (some en) meta d).1.inRange = (computeInRange (some en) meta d).2.now) := by
  have hne : ¬ en ≤ 0 := not_le.mpr hen
  rcases d with _ | dv
  · simp [computeInRange]
  · cases hpr : meta.inRange
    · by_cases hd : dv ≤ en
      all_goals simp [computeInRange, getExitDistanceM, hne, hpr, hd]
    · by_cases hx : jsRoundTenth (en * 11) ≤ dv
      all_goals simp [computeInRange, getExitDistanceM, hne, hpr, hx]

/-- Witness for C10: with a 500 m maximum (exit threshold 550 m), a
distance of 520 m keeps a previously in-range station in range. -/
theorem C10_inrange_hysteresis_witness :
    (computeInRange (some 500) { inRange := true } (some 520)).2.now = true :=
  (C10_inrange_hysteresis 500 { inRange := true } (some 520) (by decide)).2.2.1
    520 rfl (by decide) (by decide)

end Cpt
